import Mathlib

/-!
Shallow embedding of the renderer core of the physical-simulation repository
(`src/app/app.rs` and `src/app/mod.rs`).

External collaborators (the graphics backend and the platform window) are
modelled as oracles: their replies are explicit inputs to the embedded
functions.  Calls the code makes against the backend or the window that have
observable effects (configuring the surface, creating views and encoders,
beginning render passes, submitting command batches, presenting, requesting a
redraw, logging) are recorded in an explicit effect trace, in the order the
source issues them.  Handles (surface, device, queue, window, texture) are
opaque and modelled as natural numbers.  A `none` outcome of a dispatcher
handler models a process abort in the source (a failed `expect` or
`assert_eq`), with the effects issued before the abort still recorded.
-/

namespace PhysSim

/-- Physical pixel size of a window (`winit::dpi::PhysicalSize<u32>`). -/
structure PhysicalSize where
  width : Nat
  height : Nat
  deriving DecidableEq

/-- Texture formats: a representative fragment of `wgpu::TextureFormat`.
The code only inspects whether a format is sRGB-encoded. -/
inductive TextureFormat where
  | Rgba8Unorm
  | Rgba8UnormSrgb
  | Bgra8Unorm
  | Bgra8UnormSrgb
  | Rgba16Float
  deriving DecidableEq

/-- Whether a format is sRGB-encoded (`wgpu::TextureFormat::is_srgb`). -/
def TextureFormat.is_srgb : TextureFormat → Bool
  | .Rgba8UnormSrgb => true
  | .Bgra8UnormSrgb => true
  | _ => false

/-- Present modes (`wgpu::PresentMode`). -/
inductive PresentMode where
  | AutoVsync
  | AutoNoVsync
  | Fifo
  | FifoRelaxed
  | Immediate
  | Mailbox
  deriving DecidableEq

/-- Composite alpha modes (`wgpu::CompositeAlphaMode`). -/
inductive CompositeAlphaMode where
  | Auto
  | Opaque
  | PreMultiplied
  | PostMultiplied
  | Inherit
  deriving DecidableEq

/-- Texture-usage flag bits; `wgpu::TextureUsages::RENDER_ATTACHMENT` is bit 4. -/
def RENDER_ATTACHMENT : Nat := 16

/-- An RGBA color with double-precision channels (`wgpu::Color`), modelled
with exact rationals. -/
structure Color where
  r : Rat
  g : Rat
  b : Rat
  a : Rat
  deriving DecidableEq

/-- The surface configuration (`wgpu::SurfaceConfiguration`), restricted to
the fields the code sets. -/
structure SurfaceConfiguration where
  usage : Nat
  format : TextureFormat
  width : Nat
  height : Nat
  present_mode : PresentMode
  alpha_mode : CompositeAlphaMode
  view_formats : List TextureFormat
  desired_maximum_frame_latency : Nat
  deriving DecidableEq

/-- Errors from acquiring the next surface texture (`wgpu::SurfaceError`). -/
inductive SurfaceError where
  | Timeout
  | Outdated
  | Lost
  | OutOfMemory
  | Other
  deriving DecidableEq

/-- Errors from `Application::resize` (`ResizeError` in `app.rs`). -/
inductive ResizeError where
  | ZeroDimension
  deriving DecidableEq

/-- Errors from `Application::new` (`AppError` in `app.rs`).  The payloads of
`Surface` and `Device` are opaque backend error codes. -/
inductive AppError where
  | Surface (err : Nat)
  | Adapter
  | Device (err : Nat)
  | NoSurfaceFormats
  | NoPresentMode
  | NoAlphaMode
  deriving DecidableEq

/-- The application state (`Application` in `app.rs`); handles are opaque ids. -/
structure Application where
  surface : Nat
  device : Nat
  queue : Nat
  config : SurfaceConfiguration
  window : Nat
  deriving DecidableEq

/-- Background color of the simulation (`BACKGROUND_COLOR` in
`Application::render`): r = 0.0, g = b = 0.372_549_03, a = 1.0. -/
def BACKGROUND_COLOR : Color :=
  { r := 0, g := 37254903 / 100000000, b := 37254903 / 100000000, a := 1 }

/-- Observable calls against the backend and the window, in issue order. -/
inductive Effect where
  | configure (device : Nat) (config : SurfaceConfiguration)
  | createView (texture : Nat)
  | createEncoder
  | beginRenderPass (view : Nat) (clear : Color)
  | submit (buffers : Nat)
  | present (texture : Nat)
  | logError
  | logInfo
  | requestRedraw
  deriving DecidableEq

/-- Surface capabilities reported by the backend (`wgpu::SurfaceCapabilities`). -/
structure SurfaceCapabilities where
  formats : List TextureFormat
  present_modes : List PresentMode
  alpha_modes : List CompositeAlphaMode
  deriving DecidableEq

/-- Backend replies consumed by `Application::new`: the surface-creation
result, the adapter request result, the device-and-queue request result, and
the surface capabilities reported for the adapter. -/
structure NewEnv where
  create_surface : Except Nat Nat
  request_adapter : Option Nat
  request_device : Except Nat (Nat × Nat)
  surface_caps : SurfaceCapabilities

/-- Creates a new application (`Application::new` in `app.rs`).  The format
is the first sRGB entry of the reported formats, else the first entry,
else the construction fails; present and alpha modes are the first reported
entries, else the construction fails.  The source issues no surface-configure
call here — its doc comment notes that the surface is not necessarily
configured yet — so the effect trace is empty. -/
def Application.new (window : Nat) (size : PhysicalSize) (env : NewEnv) :
    Except AppError Application × List Effect :=
  (match env.create_surface with
   | .error e => .error (.Surface e)
   | .ok surface =>
     match env.request_adapter with
     | none => .error .Adapter
     | some _adapter =>
       match env.request_device with
       | .error e => .error (.Device e)
       | .ok (device, queue) =>
         match (env.surface_caps.formats.find? TextureFormat.is_srgb).or
             env.surface_caps.formats.head? with
         | none => .error .NoSurfaceFormats
         | some format =>
           match env.surface_caps.present_modes.head? with
           | none => .error .NoPresentMode
           | some present_mode =>
             match env.surface_caps.alpha_modes.head? with
             | none => .error .NoAlphaMode
             | some alpha_mode =>
               .ok { surface := surface, device := device, queue := queue,
                     config := { usage := RENDER_ATTACHMENT, format := format,
                                 width := size.width, height := size.height,
                                 present_mode := present_mode,
                                 alpha_mode := alpha_mode,
                                 view_formats := [],
                                 desired_maximum_frame_latency := 2 },
                     window := window },
   [])

/-- Attempts to resize (`Application::resize` in `app.rs`): when both
dimensions are positive, overwrites the configuration width and height and
configures the surface against the device with the updated configuration;
otherwise fails with `ZeroDimension` and changes nothing. -/
def Application.resize (app : Application) (new_size : PhysicalSize) :
    Except ResizeError Unit × Application × List Effect :=
  if 0 < new_size.width ∧ 0 < new_size.height then
    let config := { app.config with width := new_size.width, height := new_size.height }
    (.ok (), { app with config := config }, [.configure app.device config])
  else
    (.error .ZeroDimension, app, [])

/-- Updates the application state (`Application::update`): a no-op hook. -/
def Application.update (app : Application) : Application :=
  app

/-- Renders one frame (`Application::render` in `app.rs`).  `acquire` is the
backend's reply to `surface.get_current_texture()`: on failure the error is
returned at once with no effects issued; on success a view of the acquired
texture is created, one encoder is created, one render pass clearing the view
to `BACKGROUND_COLOR` is recorded, the single command buffer is submitted,
and the texture is presented. -/
def Application.render (app : Application) (acquire : Except SurfaceError Nat) :
    Except SurfaceError Unit × Application × List Effect :=
  match acquire with
  | .error e => (.error e, app, [])
  | .ok output =>
    (.ok (), app,
      [.createView output, .createEncoder,
       .beginRenderPass output BACKGROUND_COLOR,
       .submit 1, .present output])

/-- The event dispatcher (`AppWrapper` in `mod.rs`): holds the optional
application; `none` is the uninitialized state. -/
structure AppWrapper where
  app : Option Application
  deriving DecidableEq

/-- Creates a new, uninitialized dispatcher (`AppWrapper::new`). -/
def AppWrapper.new : AppWrapper :=
  { app := none }

/-- Platform replies consumed by `AppWrapper::resumed`: the created window
handle, its inner size, and the backend replies for `Application::new`. -/
structure ResumeEnv where
  window : Nat
  size : PhysicalSize
  newEnv : NewEnv

/-- Handles the resume signal (`AppWrapper::resumed`).  When uninitialized,
blocks on `Application::new`; a construction failure fails the `expect` and
aborts, modelled as `none`.  When already initialized, does nothing. -/
def AppWrapper.resumed (w : AppWrapper) (env : ResumeEnv) :
    Option AppWrapper × List Effect :=
  match w.app with
  | some _ => (some w, [])
  | none =>
    match Application.new env.window env.size env.newEnv with
    | (.ok app0, effs) => (some { app := some app0 }, effs)
    | (.error _, effs) => (none, effs)

/-- Window events as dispatched in `AppWrapper::window_event`; `Other`
stands for every window event other than `RedrawRequested` and `Resized`. -/
inductive WindowEvent where
  | RedrawRequested
  | Resized (physical_size : PhysicalSize)
  | Other (tag : Nat)

/-- Environment consumed while handling one window event: the backend's
texture-acquisition reply and the window's current inner size. -/
structure EventEnv where
  acquire : Except SurfaceError Nat
  inner_size : PhysicalSize

/-- Handles one window event (`AppWrapper::window_event` in `mod.rs`).
Uninitialized: the event is only logged.  Initialized: a mismatched window id
fails the `assert_eq` (modelled `none`); `RedrawRequested` updates then
renders — on success, on `Lost` with a successful resize to the window's
current inner size, and on any other error (after logging it) a redraw is
requested, the request being issued after the match on every non-aborting
path; `Resized` resizes, aborting on failure; any other event is logged. -/
def AppWrapper.window_event (w : AppWrapper) (window_id : Nat)
    (event : WindowEvent) (env : EventEnv) : Option AppWrapper × List Effect :=
  match w.app with
  | some app0 =>
    if app0.window = window_id then
      match event with
      | .RedrawRequested =>
        match (app0.update).render env.acquire with
        | (.ok _, app1, effs) =>
          (some { app := some app1 }, effs ++ [.requestRedraw])
        | (.error .Lost, app1, effs) =>
          match app1.resize env.inner_size with
          | (.ok _, app2, effs2) =>
            (some { app := some app2 }, effs ++ effs2 ++ [.requestRedraw])
          | (.error _, _, effs2) => (none, effs ++ effs2)
        | (.error _, app1, effs) =>
          (some { app := some app1 }, effs ++ [.logError, .requestRedraw])
      | .Resized physical_size =>
        match app0.resize physical_size with
        | (.ok _, app1, effs) => (some { app := some app1 }, effs)
        | (.error _, _, effs) => (none, effs)
      | .Other _ => (some w, [.logInfo])
    else
      (none, [])
  | none => (some w, [.logInfo])

/-- One input to the dispatcher: the resume signal or a window event, each
with the environment replies it consumes. -/
inductive DispatchInput where
  | resume (env : ResumeEnv)
  | winEvent (window_id : Nat) (event : WindowEvent) (env : EventEnv)

/-- Dispatches one input. -/
def AppWrapper.step (w : AppWrapper) : DispatchInput → Option AppWrapper × List Effect
  | .resume env => w.resumed env
  | .winEvent window_id event env => w.window_event window_id event env

/-- Runs the dispatcher over a list of inputs from a starting state,
accumulating every effect issued; stops at an abort (`none`) but keeps the
effects issued before it. -/
def AppWrapper.run (w : AppWrapper) : List DispatchInput → Option AppWrapper × List Effect
  | [] => (some w, [])
  | input :: rest =>
    match w.step input with
    | (none, effs) => (none, effs)
    | (some w2, effs) =>
      let r := w2.run rest
      (r.1, effs ++ r.2)

/-- The effect is a queue submission. -/
def Effect.isSubmit : Effect → Bool
  | .submit _ => true
  | _ => false

/-- The effect is a present call. -/
def Effect.isPresent : Effect → Bool
  | .present _ => true
  | _ => false

/-- The effect is the start of a render pass. -/
def Effect.isRenderPass : Effect → Bool
  | .beginRenderPass _ _ => true
  | _ => false

/-- Every surface-configure effect carries strictly positive dimensions;
effects other than configure satisfy this trivially. -/
def Effect.positiveConfigure : Effect → Prop
  | .configure _ c => 0 < c.width ∧ 0 < c.height
  | _ => True

/-- Example capability set: one non-sRGB format before one sRGB format. -/
def capsEx : SurfaceCapabilities :=
  { formats := [.Bgra8Unorm, .Bgra8UnormSrgb],
    present_modes := [.Fifo], alpha_modes := [.Opaque] }

/-- Example backend replies for construction, all successful. -/
def newEnvEx : NewEnv :=
  { create_surface := .ok 1, request_adapter := some 2,
    request_device := .ok (3, 4), surface_caps := capsEx }

/-- Example resume environment: window handle 7 with inner size 8 by 6. -/
def resumeEnvEx : ResumeEnv :=
  { window := 7, size := { width := 8, height := 6 }, newEnv := newEnvEx }

/-- The configuration built by construction under `newEnvEx`. -/
def cfgEx : SurfaceConfiguration :=
  { usage := RENDER_ATTACHMENT, format := .Bgra8UnormSrgb, width := 8, height := 6,
    present_mode := .Fifo, alpha_mode := .Opaque, view_formats := [],
    desired_maximum_frame_latency := 2 }

/-- The application built by construction under `newEnvEx`. -/
def appEx : Application :=
  { surface := 1, device := 3, queue := 4, config := cfgEx, window := 7 }

/-- An initialized dispatcher holding `appEx`. -/
def wrapEx : AppWrapper :=
  { app := some appEx }

/-- Example event environment with a successful texture acquisition. -/
def eventEnvEx : EventEnv :=
  { acquire := .ok 9, inner_size := { width := 8, height := 6 } }

/-- The configuration after resizing `appEx` to 10 by 20. -/
def cfgEx2 : SurfaceConfiguration :=
  { usage := RENDER_ATTACHMENT, format := .Bgra8UnormSrgb, width := 10, height := 20,
    present_mode := .Fifo, alpha_mode := .Opaque, view_formats := [],
    desired_maximum_frame_latency := 2 }

/-- Example input trace: resume, then a resize event to 10 by 20. -/
def inputsEx : List DispatchInput :=
  [.resume resumeEnvEx,
   .winEvent 7 (.Resized { width := 10, height := 20 }) eventEnvEx]

/-- C1: for every size with a zero width or zero height, resizing a
constructed application fails with `ZeroDimension`, the whole application
state — in particular every field of the stored surface configuration — is
exactly as before the call, and no backend call is issued. -/
theorem resize_zero_dimension (app : Application) (s : PhysicalSize)
    (h : s.width = 0 ∨ s.height = 0) :
    app.resize s = (.error .ZeroDimension, app, []) := by
  unfold Application.resize
  rw [if_neg]
  rintro ⟨hw, hh⟩
  rcases h with h | h <;> omega

/-- Witness for C1 at the concrete size 0 by 5. -/
theorem resize_zero_dimension_witness :
    appEx.resize { width := 0, height := 5 } = (.error .ZeroDimension, appEx, []) :=
  resize_zero_dimension appEx { width := 0, height := 5 } (Or.inl rfl)

/-- C2: for every size with positive width and height, resizing succeeds and
afterwards the stored configuration's width and height are the requested ones
while every other configuration field (usage, format, present mode, alpha
mode, view formats, desired maximum frame latency) is unchanged. -/
theorem resize_positive (app : Application) (s : PhysicalSize)
    (hw : 0 < s.width) (hh : 0 < s.height) :
    (app.resize s).1 = .ok () ∧
    ((app.resize s).2.1).config.width = s.width ∧
    ((app.resize s).2.1).config.height = s.height ∧
    ((app.resize s).2.1).config.usage = app.config.usage ∧
    ((app.resize s).2.1).config.format = app.config.format ∧
    ((app.resize s).2.1).config.present_mode = app.config.present_mode ∧
    ((app.resize s).2.1).config.alpha_mode = app.config.alpha_mode ∧
    ((app.resize s).2.1).config.view_formats = app.config.view_formats ∧
    ((app.resize s).2.1).config.desired_maximum_frame_latency
      = app.config.desired_maximum_frame_latency := by
  unfold Application.resize
  rw [if_pos ⟨hw, hh⟩]
  exact ⟨rfl, rfl, rfl, rfl, rfl, rfl, rfl, rfl, rfl⟩

/-- Witness for C2 at the concrete size 10 by 20. -/
theorem resize_positive_witness :
    (appEx.resize { width := 10, height := 20 }).1 = .ok () ∧
    ((appEx.resize { width := 10, height := 20 }).2.1).config.width = 10 ∧
    ((appEx.resize { width := 10, height := 20 }).2.1).config.height = 20 ∧
    ((appEx.resize { width := 10, height := 20 }).2.1).config.usage = appEx.config.usage ∧
    ((appEx.resize { width := 10, height := 20 }).2.1).config.format = appEx.config.format ∧
    ((appEx.resize { width := 10, height := 20 }).2.1).config.present_mode
      = appEx.config.present_mode ∧
    ((appEx.resize { width := 10, height := 20 }).2.1).config.alpha_mode
      = appEx.config.alpha_mode ∧
    ((appEx.resize { width := 10, height := 20 }).2.1).config.view_formats
      = appEx.config.view_formats ∧
    ((appEx.resize { width := 10, height := 20 }).2.1).config.desired_maximum_frame_latency
      = appEx.config.desired_maximum_frame_latency :=
  resize_positive appEx { width := 10, height := 20 } (by decide) (by decide)

/-- C10: when acquiring the next surface texture fails, render returns the
surface error with an empty effect trace — no encoder creation, no
submission, no present — and the application state is unchanged. -/
theorem render_error_atomic (app : Application) (e : SurfaceError) :
    app.render (.error e) = (.error e, app, []) :=
  rfl

/-- C5: every successful render returns success and issues exactly one queue
submission and exactly one present, and its trace contains a single render
pass, which clears the view of the acquired texture to the fixed
`BACKGROUND_COLOR` constant, independent of the application state. -/
theorem render_success_effects (app : Application) (tex : Nat) :
    (app.render (.ok tex)).1 = .ok () ∧
    ((app.render (.ok tex)).2.2).countP Effect.isSubmit = 1 ∧
    ((app.render (.ok tex)).2.2).countP Effect.isPresent = 1 ∧
    ((app.render (.ok tex)).2.2).filter Effect.isRenderPass
      = [.beginRenderPass tex BACKGROUND_COLOR] := by
  refine ⟨rfl, ?_, ?_, ?_⟩ <;>
    simp [Application.render, List.countP, List.countP.go, List.filter,
      Effect.isSubmit, Effect.isPresent, Effect.isRenderPass]

/-- C3: given backend replies whose surface, adapter and device steps
succeed, construction chooses the configuration's format as the first
sRGB-encoded entry of the reported format list if one exists and otherwise
the first reported format, chooses the present and alpha modes as the first
entries of their reported lists, and when the format, present-mode or
alpha-mode list is empty it fails with the corresponding error, returning no
application at all. -/
theorem new_capability_selection (window : Nat) (size : PhysicalSize)
    (env : NewEnv) (s a d q : Nat)
    (hs : env.create_surface = .ok s)
    (ha : env.request_adapter = some a)
    (hd : env.request_device = .ok (d, q)) :
    (env.surface_caps.formats = [] →
      (Application.new window size env).1 = .error .NoSurfaceFormats) ∧
    (env.surface_caps.formats ≠ [] → env.surface_caps.present_modes = [] →
      (Application.new window size env).1 = .error .NoPresentMode) ∧
    (env.surface_caps.formats ≠ [] → env.surface_caps.present_modes ≠ [] →
      env.surface_caps.alpha_modes = [] →
      (Application.new window size env).1 = .error .NoAlphaMode) ∧
    (∀ app0, (Application.new window size env).1 = .ok app0 →
      (env.surface_caps.formats.find? TextureFormat.is_srgb
          = some app0.config.format ∨
        (env.surface_caps.formats.find? TextureFormat.is_srgb = none ∧
          env.surface_caps.formats.head? = some app0.config.format)) ∧
      env.surface_caps.present_modes.head? = some app0.config.present_mode ∧
      env.surface_caps.alpha_modes.head? = some app0.config.alpha_mode) := by
  unfold Application.new
  simp only [hs, ha, hd]
  refine ⟨?_, ?_, ?_, ?_⟩
  · intro hf
    simp [hf, Option.or]
  · intro hf hp
    cases hfmt : env.surface_caps.formats with
    | nil => exact absurd hfmt hf
    | cons x xs =>
      cases hfind : (x :: xs).find? TextureFormat.is_srgb <;>
        simp [hfmt, hfind, hp, Option.or]
  · intro hf hp hal
    cases hfmt : env.surface_caps.formats with
    | nil => exact absurd hfmt hf
    | cons x xs =>
      cases hpm : env.surface_caps.present_modes with
      | nil => exact absurd hpm hp
      | cons y ys =>
        cases hfind : (x :: xs).find? TextureFormat.is_srgb <;>
          simp [hfmt, hfind, hpm, hal, Option.or]
  · intro app0 h0
    cases hor : (env.surface_caps.formats.find? TextureFormat.is_srgb).or
        env.surface_caps.formats.head? with
    | none => simp [hor] at h0
    | some fmt =>
      cases hpm : env.surface_caps.present_modes.head? with
      | none => simp [hor, hpm] at h0
      | some pm =>
        cases hal : env.surface_caps.alpha_modes.head? with
        | none => simp [hor, hpm, hal] at h0
        | some am =>
          simp only [hor, hpm, hal] at h0
          rw [Except.ok.injEq] at h0
          subst h0
          refine ⟨?_, by simp [hpm], by simp [hal]⟩
          cases hfind : env.surface_caps.formats.find? TextureFormat.is_srgb with
          | none =>
            right
            refine ⟨rfl, ?_⟩
            rw [hfind] at hor
            simpa [Option.or] using hor
          | some f =>
            left
            rw [hfind] at hor
            simp only [Option.or] at hor
            rw [hor]

/-- Witness for C3: with every backend reply successful but an empty format
list, construction fails with `NoSurfaceFormats`. -/
theorem new_capability_selection_witness :
    (Application.new 0 { width := 8, height := 6 }
        { create_surface := .ok 1, request_adapter := some 2,
          request_device := .ok (3, 4),
          surface_caps := { formats := [], present_modes := [], alpha_modes := [] } }).1
      = .error .NoSurfaceFormats :=
  (new_capability_selection 0 { width := 8, height := 6 }
    { create_surface := .ok 1, request_adapter := some 2,
      request_device := .ok (3, 4),
      surface_caps := { formats := [], present_modes := [], alpha_modes := [] } }
    1 2 3 4 rfl rfl rfl).1 rfl

/-- C4 counterexample: under fully successful backend replies, construction
returns an application, yet its effect trace is empty — in particular no
surface-configure call was issued before returning, contrary to the claim
that every returned manager has already had its surface configured. -/
theorem new_configure_counterexample :
    (Application.new 7 { width := 8, height := 6 } newEnvEx).1 = .ok appEx ∧
    (Application.new 7 { width := 8, height := 6 } newEnvEx).2 = [] := by
  constructor <;> rfl

/-- C4 amended: construction never issues any backend call — in particular it
does not configure the surface before returning; the source's doc comment
states the surface is not necessarily configured yet and is configured
separately (by resize). -/
theorem new_issues_no_backend_calls (window : Nat) (size : PhysicalSize)
    (env : NewEnv) :
    (Application.new window size env).2 = [] :=
  rfl

/-- C6 counterexample: an initialized dispatcher handling `RedrawRequested`
whose render fails with the non-`Lost` error `Outdated` still issues a
redraw request (after logging the error), contrary to the claim that no
redraw is requested for that event. -/
theorem redraw_error_counterexample :
    (wrapEx.window_event 7 .RedrawRequested
        { acquire := .error .Outdated, inner_size := { width := 8, height := 6 } }).2
      = [.logError, .requestRedraw] ∧
    Effect.requestRedraw ∈
      (wrapEx.window_event 7 .RedrawRequested
        { acquire := .error .Outdated, inner_size := { width := 8, height := 6 } }).2 := by
  constructor
  · rfl
  · decide

/-- C6 amended: when an initialized dispatcher handles `RedrawRequested` and
render fails with any error other than `Lost`, it logs the error and still
requests another redraw for that event — the redraw request is issued after
the error handling on every non-aborting path, so the render loop does not
stall; the state is unchanged. -/
theorem redraw_error_logs_and_redraws (w : AppWrapper) (app0 : Application)
    (window_id : Nat) (env : EventEnv) (e : SurfaceError)
    (happ : w.app = some app0) (hwid : app0.window = window_id)
    (hacq : env.acquire = .error e) (hne : e ≠ .Lost) :
    w.window_event window_id .RedrawRequested env
      = (some w, [.logError, .requestRedraw]) := by
  obtain ⟨oapp⟩ := w
  simp only at happ
  subst happ
  unfold AppWrapper.window_event
  dsimp only
  rw [if_pos hwid, hacq]
  cases e with
  | Lost => exact absurd rfl hne
  | Timeout => rfl
  | Outdated => rfl
  | OutOfMemory => rfl
  | Other => rfl

/-- Witness for C6 amended: concrete dispatcher, `Timeout` render error. -/
theorem redraw_error_logs_and_redraws_witness :
    wrapEx.window_event 7 .RedrawRequested
        { acquire := .error .Timeout, inner_size := { width := 8, height := 6 } }
      = (some wrapEx, [.logError, .requestRedraw]) :=
  redraw_error_logs_and_redraws wrapEx appEx 7
    { acquire := .error .Timeout, inner_size := { width := 8, height := 6 } }
    .Timeout rfl rfl rfl (by decide)

/-- C7: when an initialized dispatcher handles `RedrawRequested` and render
fails with `Lost`, it resizes to the window's current inner size; with a
valid (positive) reported size the resize succeeds — the configuration now
carries that size and the surface is configured with it — and a subsequent
redraw request is issued for that event. -/
theorem redraw_lost_resizes_then_redraws (w : AppWrapper) (app0 : Application)
    (window_id : Nat) (env : EventEnv)
    (happ : w.app = some app0) (hwid : app0.window = window_id)
    (hacq : env.acquire = .error .Lost)
    (hw : 0 < env.inner_size.width) (hh : 0 < env.inner_size.height) :
    w.window_event window_id .RedrawRequested env
      = (some { app := some { app0 with config := { app0.config with
            width := env.inner_size.width, height := env.inner_size.height } } },
         [.configure app0.device { app0.config with
            width := env.inner_size.width, height := env.inner_size.height },
          .requestRedraw]) := by
  obtain ⟨oapp⟩ := w
  simp only at happ
  subst happ
  unfold AppWrapper.window_event
  dsimp only
  rw [if_pos hwid, hacq]
  simp only [Application.update, Application.render, Application.resize,
    if_pos (And.intro hw hh), List.nil_append, List.cons_append]

/-- Witness for C7: concrete dispatcher, `Lost` error, inner size 8 by 6. -/
theorem redraw_lost_resizes_then_redraws_witness :
    wrapEx.window_event 7 .RedrawRequested
        { acquire := .error .Lost, inner_size := { width := 8, height := 6 } }
      = (some { app := some { appEx with config := { appEx.config with
            width := 8, height := 6 } } },
         [.configure appEx.device { appEx.config with width := 8, height := 6 },
          .requestRedraw]) :=
  redraw_lost_resizes_then_redraws wrapEx appEx 7
    { acquire := .error .Lost, inner_size := { width := 8, height := 6 } }
    rfl rfl rfl (by decide) (by decide)

/-- C8: the dispatcher's state machine.  While uninitialized, every window
event is only logged — the state is unchanged and no abort occurs; a resume
signal received while already initialized is a no-op leaving the manager
unchanged; and a resume signal while uninitialized constructs the manager via
`Application.new`, transitioning to initialized exactly when construction
succeeds. -/
theorem dispatcher_state_machine :
    (∀ (w : AppWrapper) (window_id : Nat) (ev : WindowEvent) (env : EventEnv),
      w.app = none → w.window_event window_id ev env = (some w, [.logInfo])) ∧
    (∀ (w : AppWrapper) (env : ResumeEnv),
      w.app.isSome → w.resumed env = (some w, [])) ∧
    (∀ (w : AppWrapper) (env : ResumeEnv) (app0 : Application),
      w.app = none → (Application.new env.window env.size env.newEnv).1 = .ok app0 →
      w.resumed env = (some { app := some app0 },
        (Application.new env.window env.size env.newEnv).2)) ∧
    (∀ (w : AppWrapper) (env : ResumeEnv) (err : AppError),
      w.app = none → (Application.new env.window env.size env.newEnv).1 = .error err →
      w.resumed env = (none, (Application.new env.window env.size env.newEnv).2)) := by
  refine ⟨?_, ?_, ?_, ?_⟩
  · intro w window_id ev env happ
    obtain ⟨oapp⟩ := w
    simp only at happ
    subst happ
    rfl
  · intro w env happ
    obtain ⟨oapp⟩ := w
    cases oapp with
    | none => simp [Option.isSome] at happ
    | some app0 => rfl
  · intro w env app0 happ hnew
    obtain ⟨oapp⟩ := w
    simp only at happ
    subst happ
    unfold AppWrapper.resumed
    dsimp only
    rw [show Application.new env.window env.size env.newEnv
        = ((Application.new env.window env.size env.newEnv).1,
           (Application.new env.window env.size env.newEnv).2) from rfl, hnew]
  · intro w env err happ hnew
    obtain ⟨oapp⟩ := w
    simp only at happ
    subst happ
    unfold AppWrapper.resumed
    dsimp only
    rw [show Application.new env.window env.size env.newEnv
        = ((Application.new env.window env.size env.newEnv).1,
           (Application.new env.window env.size env.newEnv).2) from rfl, hnew]

/-- Witness for C8: the fresh dispatcher logs a window event without state
change, and an initialized dispatcher treats resume as a no-op. -/
theorem dispatcher_state_machine_witness :
    AppWrapper.new.window_event 7 .RedrawRequested eventEnvEx
      = (some AppWrapper.new, [.logInfo]) ∧
    wrapEx.resumed resumeEnvEx = (some wrapEx, []) :=
  ⟨dispatcher_state_machine.1 AppWrapper.new 7 .RedrawRequested eventEnvEx rfl,
   dispatcher_state_machine.2.1 wrapEx resumeEnvEx rfl⟩

/-- Helper: construction issues no effects (its trace is empty by
definition, mirroring the absence of backend calls in the source). -/
theorem new_snd_nil (window : Nat) (size : PhysicalSize) (env : NewEnv) :
    (Application.new window size env).2 = [] :=
  rfl

/-- Helper: every effect a resize issues is a positive-dimension configure. -/
theorem resize_effects_positive (app : Application) (s : PhysicalSize) :
    ∀ e ∈ (app.resize s).2.2, e.positiveConfigure := by
  intro e he
  unfold Application.resize at he
  split at he
  case isTrue h =>
    simp only [List.mem_singleton] at he
    subst he
    exact ⟨h.1, h.2⟩
  case isFalse h =>
    simp at he

/-- Helper: `resize_effects_positive` stated on a destructured result. -/
theorem resize_effects_positive_eq (app : Application) (s : PhysicalSize)
    (r : Except ResizeError Unit) (app2 : Application) (effs : List Effect)
    (hres : app.resize s = (r, app2, effs)) :
    ∀ e ∈ effs, e.positiveConfigure := by
  intro e he
  have h2 : effs = (app.resize s).2.2 := by rw [hres]
  exact resize_effects_positive app s e (h2 ▸ he)

/-- Helper: render issues no configure effect at all, so every effect it
issues satisfies the positive-configure predicate. -/
theorem render_effects_positive (app : Application)
    (acq : Except SurfaceError Nat) :
    ∀ e ∈ (app.render acq).2.2, e.positiveConfigure := by
  intro e he
  cases acq with
  | error err => simp [Application.render] at he
  | ok tex =>
    simp only [Application.render, List.mem_cons, List.mem_singleton,
      List.not_mem_nil, or_false] at he
    rcases he with rfl | rfl | rfl | rfl | rfl <;> trivial

/-- Helper: `render_effects_positive` stated on a destructured result. -/
theorem render_effects_positive_eq (app : Application)
    (acq : Except SurfaceError Nat) (r : Except SurfaceError Unit)
    (app1 : Application) (effs : List Effect)
    (hren : app.render acq = (r, app1, effs)) :
    ∀ e ∈ effs, e.positiveConfigure := by
  intro e he
  have h2 : effs = (app.render acq).2.2 := by rw [hren]
  exact render_effects_positive app acq e (h2 ▸ he)

/-- Helper: every effect issued while handling one window event satisfies
the positive-configure predicate. -/
theorem window_event_effects_positive (w : AppWrapper) (window_id : Nat)
    (ev : WindowEvent) (env : EventEnv) :
    ∀ e ∈ (w.window_event window_id ev env).2, e.positiveConfigure := by
  intro e he
  obtain ⟨oapp⟩ := w
  cases oapp with
  | none =>
    unfold AppWrapper.window_event at he
    dsimp only at he
    simp only [List.mem_singleton] at he
    subst he
    trivial
  | some app0 =>
    unfold AppWrapper.window_event at he
    dsimp only at he
    by_cases hwid : app0.window = window_id
    case neg =>
      rw [if_neg hwid] at he
      simp at he
    case pos =>
      rw [if_pos hwid] at he
      cases ev with
      | Other tag =>
        dsimp only at he
        simp only [List.mem_singleton] at he
        subst he
        trivial
      | Resized ps =>
        dsimp only at he
        rcases hres : app0.resize ps with ⟨r, app1, effs⟩
        rw [hres] at he
        cases r with
        | ok u =>
          dsimp only at he
          exact resize_effects_positive_eq app0 ps (.ok u) app1 effs hres e he
        | error err =>
          dsimp only at he
          exact resize_effects_positive_eq app0 ps (.error err) app1 effs hres e he
      | RedrawRequested =>
        dsimp only at he
        rcases hren : app0.update.render env.acquire with ⟨r, app1, effs⟩
        rw [hren] at he
        cases r with
        | ok u =>
          dsimp only at he
          rw [List.mem_append] at he
          rcases he with he | he
          · exact render_effects_positive_eq app0.update env.acquire
              (.ok u) app1 effs hren e he
          · simp only [List.mem_singleton] at he
            subst he
            trivial
        | error err =>
          cases err with
          | Lost =>
            dsimp only at he
            rcases hres : app1.resize env.inner_size with ⟨r2, app2, effs2⟩
            rw [hres] at he
            cases r2 with
            | ok u2 =>
              dsimp only at he
              rw [List.append_assoc, List.mem_append] at he
              rcases he with he | he
              · exact render_effects_positive_eq app0.update env.acquire
                  (.error .Lost) app1 effs hren e he
              · rw [List.mem_append] at he
                rcases he with he | he
                · exact resize_effects_positive_eq app1 env.inner_size
                    (.ok u2) app2 effs2 hres e he
                · simp only [List.mem_singleton] at he
                  subst he
                  trivial
            | error err2 =>
              dsimp only at he
              rw [List.mem_append] at he
              rcases he with he | he
              · exact render_effects_positive_eq app0.update env.acquire
                  (.error .Lost) app1 effs hren e he
              · exact resize_effects_positive_eq app1 env.inner_size
                  (.error err2) app2 effs2 hres e he
          | Timeout =>
            dsimp only at he
            rw [List.mem_append] at he
            rcases he with he | he
            · exact render_effects_positive_eq app0.update env.acquire
                (.error .Timeout) app1 effs hren e he
            · simp only [List.mem_cons, List.mem_singleton, List.not_mem_nil,
                or_false] at he
              rcases he with rfl | rfl <;> trivial
          | Outdated =>
            dsimp only at he
            rw [List.mem_append] at he
            rcases he with he | he
            · exact render_effects_positive_eq app0.update env.acquire
                (.error .Outdated) app1 effs hren e he
            · simp only [List.mem_cons, List.mem_singleton, List.not_mem_nil,
                or_false] at he
              rcases he with rfl | rfl <;> trivial
          | OutOfMemory =>
            dsimp only at he
            rw [List.mem_append] at he
            rcases he with he | he
            · exact render_effects_positive_eq app0.update env.acquire
                (.error .OutOfMemory) app1 effs hren e he
            · simp only [List.mem_cons, List.mem_singleton, List.not_mem_nil,
                or_false] at he
              rcases he with rfl | rfl <;> trivial
          | Other =>
            dsimp only at he
            rw [List.mem_append] at he
            rcases he with he | he
            · exact render_effects_positive_eq app0.update env.acquire
                (.error .Other) app1 effs hren e he
            · simp only [List.mem_cons, List.mem_singleton, List.not_mem_nil,
                or_false] at he
              rcases he with rfl | rfl <;> trivial

/-- Helper: every effect issued by one dispatcher step satisfies the
positive-configure predicate. -/
theorem step_effects_positive (w : AppWrapper) (input : DispatchInput) :
    ∀ e ∈ (w.step input).2, e.positiveConfigure := by
  intro e he
  cases input with
  | winEvent window_id ev env =>
    exact window_event_effects_positive w window_id ev env e he
  | resume env =>
    obtain ⟨oapp⟩ := w
    cases oapp with
    | some app0 =>
      simp [AppWrapper.step, AppWrapper.resumed] at he
    | none =>
      simp only [AppWrapper.step] at he
      unfold AppWrapper.resumed at he
      dsimp only at he
      rcases hnew : Application.new env.window env.size env.newEnv with ⟨r, effs⟩
      have heffs : effs = [] :=
        ((congrArg Prod.snd hnew).symm).trans (new_snd_nil env.window env.size env.newEnv)
      rw [hnew] at he
      cases r with
      | ok app0 =>
        dsimp only at he
        rw [heffs] at he
        simp at he
      | error err =>
        dsimp only at he
        rw [heffs] at he
        simp at he

/-- Helper: every effect issued along any dispatcher run satisfies the
positive-configure predicate. -/
theorem run_effects_positive (w : AppWrapper) (inputs : List DispatchInput) :
    ∀ e ∈ (w.run inputs).2, e.positiveConfigure := by
  induction inputs generalizing w with
  | nil =>
    intro e he
    simp [AppWrapper.run] at he
  | cons input rest ih =>
    intro e he
    unfold AppWrapper.run at he
    rcases hstep : w.step input with ⟨r, effs⟩
    have heffs : effs = (w.step input).2 := by rw [hstep]
    rw [hstep] at he
    cases r with
    | none =>
      dsimp only at he
      exact step_effects_positive w input e (heffs ▸ he)
    | some w2 =>
      dsimp only at he
      rw [List.mem_append] at he
      rcases he with he | he
      · exact step_effects_positive w input e (heffs ▸ he)
      · exact ih w2 e he

/-- C9: invariant over all reachable behaviour of the dispatcher started in
the uninitialized state — construction, resize, render, and event handling
included: whenever a surface-configure call is issued against the device,
the width and height of the configuration applied are strictly positive. -/
theorem reachable_configure_positive (inputs : List DispatchInput) (e : Effect)
    (he : e ∈ (AppWrapper.new.run inputs).2) : e.positiveConfigure :=
  run_effects_positive AppWrapper.new inputs e he

/-- Witness for C9: running resume followed by a resize event to 10 by 20
issues the concrete configure effect, whose dimensions are positive. -/
theorem reachable_configure_positive_witness :
    Effect.positiveConfigure (.configure 3 cfgEx2) :=
  reachable_configure_positive inputsEx (.configure 3 cfgEx2) (by decide)

end PhysSim
